import Mathlib

/-!
Verification of the xurls URL-extraction package.

The package builds two regular expressions (`Strict` and `Relaxed`) from
named character-class and grammar-fragment constants, compiles them with
leftmost-longest ("Longest") match semantics, and exposes a parameterised
builder `StrictMatchingScheme`.

This development embeds the package at two levels:

* a syntactic level that mirrors the Go code building the expression
  *strings* (`anyOf`, `strictExp`, `relaxedExp`, `StrictMatchingScheme`,
  the TLD-table partition, and a small model of Go slice/append aliasing);
* a semantic level: an executable regular-expression abstract syntax
  (`Regex`) together with a leftmost-longest match engine
  (`matchEnds` / `findAll`), and a hand translation of each named grammar
  fragment of the source into that syntax.  End-position sets are
  represented as bit masks (a `Nat` whose bit `e` is set exactly when the
  fragment can match ending at position `e`).

Inputs are lists of Unicode code points (`List Nat`); `str` converts a
string literal.  The generated data tables (the TLD table, the pseudo-TLD
table and the generated `allowedUcsChar` ranges) are not part of the two
source files and are modelled from the specification where needed.
-/

namespace Xurls

/-- Convert a string to the list of its Unicode code points. -/
def str (s : String) : List Nat := s.data.map Char.toNat

/-- Single bit mask for position `n`. -/
def bit (n : Nat) : Nat := (1 : Nat) <<< n

/-- ASCII decimal digit. -/
def isAsciiDigit (c : Nat) : Bool := 0x30 ≤ c && c ≤ 0x39

/-- ASCII uppercase letter. -/
def isAsciiUpper (c : Nat) : Bool := 0x41 ≤ c && c ≤ 0x5A

/-- ASCII lowercase letter. -/
def isAsciiLower (c : Nat) : Bool := 0x61 ≤ c && c ≤ 0x7A

/-- ASCII letter. -/
def isAsciiAlpha (c : Nat) : Bool := isAsciiUpper c || isAsciiLower c

/-- ASCII letter or digit. -/
def isAsciiAlnum (c : Nat) : Bool := isAsciiAlpha c || isAsciiDigit c

/-- Word character for the pattern engine word boundary: `[0-9A-Za-z_]`. -/
def isWordCp (c : Nat) : Bool := isAsciiAlnum c || c == 0x5F

/-- ASCII case folding used for the case-insensitive `(?i)` regions.  All
pattern text under `(?i)` in the source is lowercase ASCII, so folding the
ASCII range is the behaviour exercised here. -/
def ciFold (c : Nat) : Nat := if 0x41 ≤ c && c ≤ 0x5A then c + 0x20 else c

/-- Source `midSubDelimChar`: the characters of `!$&\x27*+,;=`. -/
def isMidSubDelimChar (c : Nat) : Bool :=
  c == 0x21 || c == 0x24 || c == 0x26 || c == 0x27 || c == 0x2A ||
  c == 0x2B || c == 0x2C || c == 0x3B || c == 0x3D

/-- Source `endSubDelimChar`: the characters of `$&+=`. -/
def isEndSubDelimChar (c : Nat) : Bool :=
  c == 0x24 || c == 0x26 || c == 0x2B || c == 0x3D

/-- Modelled from the spec: the generated `allowedUcsChar` table (the
Unicode code-point ranges allowed inside an internationalized path
segment) is produced by `generate/unicodegen` and is not among the given
source files.  It is modelled here as the RFC 3987 `ucschar` ranges, which
the source comment cites; every range lies above U+00A0, so membership of
ASCII characters (the only ones the concrete claims exercise) is `false`
exactly as in the generated table. -/
def isAllowedUcsChar (c : Nat) : Bool :=
  (0xA0 ≤ c && c ≤ 0xD7FF) || (0xF900 ≤ c && c ≤ 0xFDCF) ||
  (0xFDF0 ≤ c && c ≤ 0xFFEF) || (0x10000 ≤ c && c ≤ 0x1FFFD) ||
  (0x20000 ≤ c && c ≤ 0x2FFFD) || (0x30000 ≤ c && c ≤ 0x3FFFD) ||
  (0xE1000 ≤ c && c ≤ 0xEFFFD)

/-- Modelled from the spec: the generated `allowedUcsCharMinusPunc` table,
the previous table with usually-punctuation code points removed; modelled
as `allowedUcsChar` minus the general-punctuation block.  ASCII membership
is again `false`, as in the generated table. -/
def isAllowedUcsCharMinusPunc (c : Nat) : Bool :=
  isAllowedUcsChar c && !(0x2000 ≤ c && c ≤ 0x206F)

/-- Source `iPrivateChar`: `\x7bE000\x7d-\x7bF8FF\x7d` and the two
private-use planes. -/
def isIPrivateChar (c : Nat) : Bool :=
  (0xE000 ≤ c && c ≤ 0xF8FF) || (0xF0000 ≤ c && c ≤ 0xFFFFD) ||
  (0x100000 ≤ c && c ≤ 0x10FFFD)

/-- Source `midIPathSegmentChar`:
`a-zA-Z0-9\-._~` + `%` + midSubDelimChar + `:@` + allowedUcsChar. -/
def isMidIPathSegmentChar (c : Nat) : Bool :=
  isAsciiAlnum c || c == 0x2D || c == 0x2E || c == 0x5F || c == 0x7E ||
  c == 0x25 || isMidSubDelimChar c || c == 0x3A || c == 0x40 ||
  isAllowedUcsChar c

/-- Source `endIPathSegmentChar`:
`a-zA-Z0-9\-_~` + `%` + endSubDelimChar + allowedUcsCharMinusPunc.
Note the absence of `.` and of most sub-delimiters. -/
def isEndIPathSegmentChar (c : Nat) : Bool :=
  isAsciiAlnum c || c == 0x2D || c == 0x5F || c == 0x7E ||
  c == 0x25 || isEndSubDelimChar c || isAllowedUcsCharMinusPunc c

/-- Source `midIChar`: `/?#\\` + midIPathSegmentChar + iPrivateChar. -/
def isMidIChar (c : Nat) : Bool :=
  c == 0x2F || c == 0x3F || c == 0x23 || c == 0x5C ||
  isMidIPathSegmentChar c || isIPrivateChar c

/-- Source `endIChar`: `/#` + endIPathSegmentChar + iPrivateChar. -/
def isEndIChar (c : Nat) : Bool :=
  c == 0x2F || c == 0x23 || isEndIPathSegmentChar c || isIPrivateChar c

/-- Modelled Unicode general category Letter (`\p\x7bL\x7d`).  The full
category table lives in the external pattern engine; it is modelled here
by the ASCII letters together with the non-ASCII script ranges exercised
by the modelled TLD table (Latin-1 letters, Greek, Cyrillic, CJK).
Membership of every ASCII character agrees exactly with `\p\x7bL\x7d`. -/
def isUnicodeLetter (c : Nat) : Bool :=
  isAsciiAlpha c || (0xC0 ≤ c && c ≤ 0xFF && c != 0xD7 && c != 0xF7) ||
  (0x391 ≤ c && c ≤ 0x3C9) || (0x400 ≤ c && c ≤ 0x4FF) ||
  (0x4E00 ≤ c && c ≤ 0x9FFF)

/-- Modelled Unicode general category Mark (`\p\x7bM\x7d`), restricted to
the combining diacritical marks block; `false` on every ASCII character,
in agreement with the full category. -/
def isUnicodeMark (c : Nat) : Bool := 0x300 ≤ c && c ≤ 0x36F

/-- Modelled Unicode general category Number (`\p\x7bN\x7d`); `\p\x7bN\x7d`
agrees with this on all ASCII characters. -/
def isUnicodeNumber (c : Nat) : Bool :=
  isAsciiDigit c || (0x660 ≤ c && c ≤ 0x669)

/-- Source `iriChar`: letter + mark + number. -/
def isIriChar (c : Nat) : Bool :=
  isUnicodeLetter c || isUnicodeMark c || isUnicodeNumber c

/-- The class `[` iriChar `\-]` used inside a label. -/
def isIriDashChar (c : Nat) : Bool := isIriChar c || c == 0x2D

/-- The email local-part class `[a-zA-Z0-9._%\-+]`. -/
def isEmailLocalChar (c : Nat) : Bool :=
  isAsciiAlnum c || c == 0x2E || c == 0x5F || c == 0x25 || c == 0x2D ||
  c == 0x2B

/-- The `AnyScheme` continuation class `[a-zA-Z.\-+]`. -/
def isSchemeTailChar (c : Nat) : Bool :=
  isAsciiAlpha c || c == 0x2E || c == 0x2D || c == 0x2B

/-- The punycode class `[a-z0-9-]` as seen under `(?i)`. -/
def isPunyChar (c : Nat) : Bool := isAsciiAlnum c || c == 0x2D

/-- Hexadecimal digit `[0-9a-fA-F]`. -/
def isHexDigit (c : Nat) : Bool :=
  isAsciiDigit c || (0x41 ≤ c && c ≤ 0x46) || (0x61 ≤ c && c ≤ 0x66)

/-- Regular-expression abstract syntax for the fragments the source
builds.  `cls` is a single character from a class, `clsStar` is the
translation of `[class]*`, `lit` a case-sensitive literal, `oneOfCI` a
case-insensitive alternation of literals (the `(?i)` reading of an
`anyOf` group; an empty group `(?:)` matches the empty string), and `wb`
the zero-width word boundary `\b`. -/
inductive Regex where
  | eps
  | cls (p : Nat → Bool)
  | clsStar (p : Nat → Bool)
  | lit (s : List Nat)
  | oneOfCI (ss : List (List Nat))
  | wb
  | cat (r s : Regex)
  | alt (r s : Regex)
  | star (r : Regex)

/-- Pack a list of code points into one natural number, 32 bits per
character (code points are below 2^21), so that character lookup is a
single shift-and-mask. -/
def pack : List Nat → Nat
  | [] => 0
  | c :: cs => c ||| (pack cs <<< 32)

/-- Character at index `i` of a packed input; indices at or beyond the
end read as 0, which is not a word character and occurs in no pattern. -/
def charAt (packed i : Nat) : Nat := (packed >>> (32 * i)) &&& 0xFFFFFFFF

/-- Word-boundary test at `pos`: the word-character statuses of the
previous character and of the current character differ (outside the
input counts as non-word). -/
def wordBoundary (packed len pos : Nat) : Bool :=
  let before :=
    match pos with
    | 0 => false
    | p + 1 => decide (p < len) && isWordCp (charAt packed p)
  let after := decide (pos < len) && isWordCp (charAt packed pos)
  before != after

/-!
A grammar fragment is evaluated on a whole input at once into a *table*:
one natural number holding, for every start position `pos < W` (where
`W = len + 2`), the bit mask of possible end positions in the bit range
`[pos * W, (pos + 1) * W)`.  Row operations are then single big-number
bit operations, which keeps kernel evaluation cheap.
-/

/-- Row `pos` of a table: the end-position bit mask for start `pos`. -/
def getRow (table W pos : Nat) : Nat := (table >>> (pos * W)) &&& ((1 <<< W) - 1)

/-- Build a table from a per-position end-mask function, for positions
below `k`. -/
def buildT (f : Nat → Nat) (W : Nat) : Nat → Nat
  | 0 => 0
  | k + 1 => (f k <<< (k * W)) ||| buildT f W k

/-- The table of the empty fragment: every position maps to itself. -/
def identT (W : Nat) : Nat := buildT bit W W

/-- Bitmap of the positions below `k` whose character satisfies `p`. -/
def classBitmap (p : Nat → Bool) (packed : Nat) : Nat → Nat
  | 0 => 0
  | k + 1 => (if p (charAt packed k) then bit k else 0) ||| classBitmap p packed k

/-- Lowest set bit of a positive number, as a power of two. -/
def lowBit (x : Nat) : Nat := x ^^^ (x &&& (x - 1))

/-- End mask of `[class]*` at `pos`, from the class bitmap: the run of
set bitmap bits starting at `pos` has some length `r` (the window of
`len + 2` bits always contains a zero above the input end, so the lowest
zero exists), and every end from `pos` to `pos + r` is possible. -/
def runMask (bm len pos : Nat) : Nat :=
  let z := bm >>> pos
  let notZ := z ^^^ ((1 <<< (len + 2)) - 1)
  (lowBit notZ * 2 - 1) <<< pos

/-- Case-folded packed input, for the `(?i)` literal comparisons. -/
def ciPackOf (packed : Nat) : Nat → Nat
  | 0 => 0
  | k + 1 => (ciFold (charAt packed k) <<< (32 * k)) ||| ciPackOf packed k

/-- One row of a relational composition: the union of the rows of `T2`
at the positions present in `row`, which holds the bits of the source
row from position `e` upward.  Stops as soon as the remaining row bits
are zero. -/
def composeRow (T2 W : Nat) : Nat → Nat → Nat → Nat
  | _, 0, _ => 0
  | row, fuel + 1, e =>
    if row == 0 then 0
    else
      (if row &&& 1 == 1 then getRow T2 W e else 0) |||
        composeRow T2 W (row >>> 1) fuel (e + 1)

/-- Relational composition of two tables: concatenation of fragments.
An end position of a fragment never precedes its start position, so the
row walk starts at the diagonal. -/
def composeT (T1 T2 W : Nat) : Nat :=
  buildT (fun pos => composeRow T2 W (getRow T1 W pos >>> pos) W pos) W W

/-- Reflexive-transitive closure by repeated squaring with an early
fixpoint exit; `fuel = W` rounds always reach the fixpoint, since a
reachability path never needs more than `W` steps. -/
def starIter (W : Nat) : Nat → Nat → Nat
  | 0, S => S
  | fuel + 1, S =>
    let S2 := composeT S S W
    if S2 == S then S else starIter W fuel S2

/-- The match table of a fragment over a packed input of length `len`:
bit `e` of row `pos` is set exactly when the fragment matches the input
span `[pos, e)` (word boundaries consulting the surrounding context). -/
def tableFor (packed len : Nat) : Regex → Nat
  | .eps => identT (len + 2)
  | .cls p =>
    let bm := classBitmap p packed len
    buildT (fun pos => if bm.testBit pos then bit (pos + 1) else 0) (len + 2) (len + 2)
  | .clsStar p =>
    let bm := classBitmap p packed len
    buildT (fun pos => runMask bm len pos) (len + 2) (len + 2)
  | .lit s =>
    let ps := pack s
    let m := (1 <<< (32 * s.length)) - 1
    buildT
      (fun pos => if (packed >>> (32 * pos)) &&& m == ps then bit (pos + s.length) else 0)
      (len + 2) (len + 2)
  | .oneOfCI ss =>
    let ci := ciPackOf packed len
    let pats := ss.map (fun s => (pack (s.map ciFold), ((1 <<< (32 * s.length)) - 1, s.length)))
    buildT
      (fun pos =>
        if ss.isEmpty then bit pos
        else
          let seg := ci >>> (32 * pos)
          pats.foldr
            (fun q acc => (if seg &&& q.2.1 == q.1 then bit (pos + q.2.2) else 0) ||| acc)
            0)
      (len + 2) (len + 2)
  | .wb =>
    buildT (fun pos => if wordBoundary packed len pos then bit pos else 0) (len + 2) (len + 2)
  | .cat r s => composeT (tableFor packed len r) (tableFor packed len s) (len + 2)
  | .alt r s => tableFor packed len r ||| tableFor packed len s
  | .star r =>
    starIter (len + 2) (len + 2) (identT (len + 2) ||| tableFor packed len r)

/-- End-position bit mask of a match of `r` starting at `pos` in `input`. -/
def matchEnds (input : List Nat) (r : Regex) (pos : Nat) : Nat :=
  getRow (tableFor (pack input) input.length r) (input.length + 2) pos

/-- Largest position below `k` present in `mask`. -/
def topBit (mask : Nat) : Nat → Option Nat
  | 0 => none
  | k + 1 => if mask.testBit k then some k else topBit mask k

/-- Leftmost-longest scan over a match table: at each position take the
longest match if one exists, then continue after it (an empty match
advances by one). -/
def findAllT (T W len : Nat) : Nat → Nat → List (Nat × Nat)
  | 0, _ => []
  | fuel + 1, pos =>
    if len < pos then []
    else
      match topBit (getRow T W pos) W with
      | none => findAllT T W len fuel (pos + 1)
      | some e => (pos, e) :: findAllT T W len fuel (if e ≤ pos then pos + 1 else e)

/-- All leftmost-longest non-overlapping match spans, as
(start, end-exclusive) pairs, mirroring `FindAllIndex` on a pattern put
into `Longest` mode. -/
def findAll (r : Regex) (input : List Nat) : List (Nat × Nat) :=
  findAllT (tableFor (pack input) input.length r) (input.length + 2) input.length
    (input.length + 2) 0

/-- Single-character literal. -/
def chR (c : Nat) : Regex := .lit [c]

/-- The `?` suffix. -/
def optR (r : Regex) : Regex := .alt .eps r

/-- The `+` suffix. -/
def plusR (r : Regex) : Regex := .cat r (.star r)

/-- Exactly `n` copies, for the bounded repetitions of the IPv6 grammar. -/
def repN (r : Regex) : Nat → Regex
  | 0 => .eps
  | n + 1 => .cat r (repN r n)

/-- At most `n` copies. -/
def upToR (r : Regex) : Nat → Regex
  | 0 => .eps
  | n + 1 => .alt .eps (.cat r (upToR r n))

/-- Between `lo` and `hi` copies: the `\x7blo,hi\x7d` counted repetition. -/
def repRange (r : Regex) (lo hi : Nat) : Regex := .cat (repN r lo) (upToR r (hi - lo))

/-- Source `Schemes`: the sorted list of all IANA assigned schemes. -/
def Schemes : List String := [
  "aaa", "aaas", "about", "acap", "acct", "acr", "adiumxtra", "afp", "afs",
  "aim", "appdata", "apt", "attachment", "aw", "barion", "beshare",
  "bitcoin", "blob", "bolo", "browserext", "callto", "cap", "chrome",
  "chrome-extension", "cid", "coap", "coap+tcp", "coap+ws", "coaps",
  "coaps+tcp", "coaps+ws", "com-eventbrite-attendee", "content", "conti",
  "crid", "cvs", "data", "dav", "diaspora", "dict", "dis",
  "dlna-playcontainer", "dlna-playsingle", "dns", "dntp", "dtn", "dvb",
  "ed2k", "example", "facetime", "fax", "feed", "feedready", "file",
  "filesystem", "finger", "fish", "ftp", "geo", "gg", "git",
  "gizmoproject", "go", "gopher", "graph", "gtalk", "h323", "ham", "hcp",
  "http", "https", "hxxp", "hxxps", "hydrazone", "iax", "icap", "icon",
  "im", "imap", "info", "iotdisco", "ipn", "ipp", "ipps", "irc", "irc6",
  "ircs", "iris", "iris.beep", "iris.lwz", "iris.xpc", "iris.xpcs",
  "isostore", "itms", "jabber", "jar", "jms", "keyparc", "lastfm", "ldap",
  "ldaps", "lvlt", "magnet", "mailserver", "mailto", "maps", "market",
  "message", "microsoft.windows.camera",
  "microsoft.windows.camera.multipicker", "microsoft.windows.camera.picker",
  "mid", "mms", "modem", "mongodb", "moz", "ms-access",
  "ms-browser-extension", "ms-drive-to", "ms-enrollment", "ms-excel",
  "ms-gamebarservices", "ms-gamingoverlay", "ms-getoffice", "ms-help",
  "ms-infopath", "ms-inputapp", "ms-lockscreencomponent-config",
  "ms-media-stream-id", "ms-mixedrealitycapture", "ms-officeapp",
  "ms-people", "ms-project", "ms-powerpoint", "ms-publisher",
  "ms-restoretabcompanion", "ms-search-repair",
  "ms-secondary-screen-controller", "ms-secondary-screen-setup",
  "ms-settings", "ms-settings-airplanemode", "ms-settings-bluetooth",
  "ms-settings-camera", "ms-settings-cellular", "ms-settings-cloudstorage",
  "ms-settings-connectabledevices", "ms-settings-displays-topology",
  "ms-settings-emailandaccounts", "ms-settings-language",
  "ms-settings-location", "ms-settings-lock", "ms-settings-nfctransactions",
  "ms-settings-notifications", "ms-settings-power", "ms-settings-privacy",
  "ms-settings-proximity", "ms-settings-screenrotation", "ms-settings-wifi",
  "ms-settings-workplace", "ms-spd", "ms-sttoverlay", "ms-transit-to",
  "ms-useractivityset", "ms-virtualtouchpad", "ms-visio", "ms-walk-to",
  "ms-whiteboard", "ms-whiteboard-cmd", "ms-word", "msnim", "msrp",
  "msrps", "mtqp", "mumble", "mupdate", "mvn", "news", "nfs", "ni", "nih",
  "nntp", "notes", "ocf", "oid", "onenote", "onenote-cmd",
  "opaquelocktoken", "pack", "palm", "paparazzi", "pkcs11", "platform",
  "pop", "pres", "prospero", "proxy", "pwid", "psyc", "qb", "query",
  "redis", "rediss", "reload", "res", "resource", "rmi", "rsync", "rtmfp",
  "rtmp", "rtsp", "rtsps", "rtspu", "secondlife", "service", "session",
  "sftp", "sgn", "shttp", "sieve", "sip", "sips", "skype", "smb", "sms",
  "smtp", "snews", "snmp", "soap.beep", "soap.beeps", "soldat", "spiffe",
  "spotify", "ssh", "steam", "stun", "stuns", "submit", "svn", "tag",
  "teamspeak", "tel", "teliaeid", "telnet", "tftp", "things",
  "thismessage", "tip", "tn3270", "tool", "turn", "turns", "tv", "udp",
  "unreal", "urn", "ut2004", "v-event", "vemmi", "ventrilo", "videotex",
  "vnc", "view-source", "wais", "webcal", "wpid", "ws", "wss", "wtai",
  "wyciwyg", "xcon", "xcon-userid", "xfire", "xmlrpc.beep", "xmlrpc.beeps",
  "xmpp", "xri", "ymsgr", "z39.50", "z39.50r", "z39.50s"]

/-- Source `SchemesUnofficial`: well-known but unregistered schemes. -/
def SchemesUnofficial : List String := [
  "gemini", "jdbc", "moz-extension", "postgres", "postgresql", "slack",
  "zoommtg", "zoomus"]

/-- Source `SchemesNoAuthority`: schemes followed by `:` instead of `://`. -/
def SchemesNoAuthority : List String := [
  "bitcoin", "cid", "file", "magnet", "mailto", "mid", "sms", "tel", "xmpp"]

/-- Modelled from the spec: the generated `TLDs` table (all IANA
top-level domains) is produced by `generate/tldsgen` and is not among the
given source files.  Modelled as a small table satisfying the documented
invariant that every ASCII entry precedes every non-ASCII entry. -/
def TLDs : List String := [
  "co", "com", "net", "org",
  "рф", "中国"]

/-- Modelled from the spec: the `PseudoTLDs` table of non-IANA top-level
labels (local-network and onion-style suffixes), folded in on the ASCII
side; not among the given source files. -/
def PseudoTLDs : List String := [
  "bit", "example", "gnu", "i2p", "invalid", "local", "localhost",
  "onion", "test", "zkey"]

/-- Go tests `tld[0] >= utf8.RuneSelf`, i.e. whether the first byte of
the entry is not ASCII; the first UTF-8 byte is at least 0x80 exactly
when the first code point is.  (Go would panic on an empty entry; the
tables contain none.) -/
def firstCpGeRuneSelf (s : String) : Bool :=
  match s.data with
  | [] => false
  | c :: _ => 0x80 ≤ c.toNat

/-- The partition loop of `relaxedExp`: scan for the first entry whose
first byte is non-ASCII; on finding index `i` take `TLDs[:i:i]` and
`TLDs[i:]`, otherwise leave both slices nil. -/
def relaxedPartition (tlds : List String) : List String × List String :=
  match tlds.findIdx? firstCpGeRuneSelf with
  | some i => (tlds.take i, tlds.drop i)
  | none => ([], [])

/-- The `asciiTLDs` slice computed by `relaxedExp` on the TLD table. -/
def asciiTLDs : List String := (relaxedPartition TLDs).1

/-- The `unicodeTLDs` slice computed by `relaxedExp` on the TLD table. -/
def unicodeTLDs : List String := (relaxedPartition TLDs).2

/-- Digit range `[0-5]`. -/
def isDigit05 (c : Nat) : Bool := 0x30 ≤ c && c ≤ 0x35

/-- Digit range `[0-4]`. -/
def isDigit04 (c : Nat) : Bool := 0x30 ≤ c && c ≤ 0x34

/-- Digit range `[1-9]`. -/
def isDigit19 (c : Nat) : Bool := 0x31 ≤ c && c ≤ 0x39

/-- Source `wellParen`: `\((?:[` midIChar `]|\([` midIChar `]*\))*\)`. -/
def wellParenRx : Regex :=
  .cat (chR 0x28)
    (.cat
      (.star (.alt (.cls isMidIChar)
        (.cat (chR 0x28) (.cat (.clsStar isMidIChar) (chR 0x29)))))
      (chR 0x29))

/-- Source `wellBrack`: `\[(?:[` midIChar `]|\[[` midIChar `]*\])*\]`. -/
def wellBrackRx : Regex :=
  .cat (chR 0x5B)
    (.cat
      (.star (.alt (.cls isMidIChar)
        (.cat (chR 0x5B) (.cat (.clsStar isMidIChar) (chR 0x5D)))))
      (chR 0x5D))

/-- Source `wellBrace`: one level of self-nested braces, like the other
two delimiter pairs. -/
def wellBraceRx : Regex :=
  .cat (chR 0x7B)
    (.cat
      (.star (.alt (.cls isMidIChar)
        (.cat (chR 0x7B) (.cat (.clsStar isMidIChar) (chR 0x7D)))))
      (chR 0x7D))

/-- Source `wellAll`: wellParen `|` wellBrack `|` wellBrace. -/
def wellAllRx : Regex := .alt wellParenRx (.alt wellBrackRx wellBraceRx)

/-- Source `pathCont`: `(?:[` midIChar `]*(?:` wellAll `|[` endIChar `]))+`. -/
def pathContRx : Regex :=
  plusR (.cat (.clsStar isMidIChar) (.alt wellAllRx (.cls isEndIChar)))

/-- Source `iri`: `[` iriChar `](?:[` iriChar `\-]*[` iriChar `])?`. -/
def iriRx : Regex :=
  .cat (.cls isIriChar) (optR (.cat (.clsStar isIriDashChar) (.cls isIriChar)))

/-- Source `domain`: `(?:` iri `\.)+`. -/
def domainRx : Regex := plusR (.cat iriRx (chR 0x2E))

/-- Source `octet`: `(?:25[0-5]|2[0-4][0-9]|1[0-9]\x7b2\x7d|[1-9][0-9]|[0-9])`. -/
def octetRx : Regex :=
  .alt (.cat (.lit (str ("25"))) (.cls isDigit05))
    (.alt (.cat (chR 0x32) (.cat (.cls isDigit04) (.cls isAsciiDigit)))
      (.alt (.cat (chR 0x31) (.cat (.cls isAsciiDigit) (.cls isAsciiDigit)))
        (.alt (.cat (.cls isDigit19) (.cls isAsciiDigit))
          (.cls isAsciiDigit))))

/-- Source `ipv4Addr`: `\b` octet `\.` octet `\.` octet `\.` octet `\b`. -/
def ipv4AddrRx : Regex :=
  .cat .wb
    (.cat octetRx
      (.cat (chR 0x2E)
        (.cat octetRx
          (.cat (chR 0x2E)
            (.cat octetRx
              (.cat (chR 0x2E)
                (.cat octetRx .wb)))))))

/-- Hex group `[0-9a-fA-F]\x7b1,4\x7d`. -/
def hex14Rx : Regex := repRange (.cls isHexDigit) 1 4

/-- The `:` character. -/
def colonRx : Regex := chR 0x3A

/-- Group `:[0-9a-fA-F]\x7b1,4\x7d`. -/
def colonHexRx : Regex := .cat colonRx hex14Rx

/-- The dotted-decimal octet of the mixed IPv6/IPv4 tail:
`(?:25[0-5]|(?:2[0-4]|1[0-9]|[1-9])?[0-9])`. -/
def v6octetRx : Regex :=
  .alt (.cat (.lit (str ("25"))) (.cls isDigit05))
    (.cat
      (optR (.alt (.cat (chR 0x32) (.cls isDigit04))
        (.alt (.cat (chR 0x31) (.cls isAsciiDigit)) (.cls isDigit19))))
      (.cls isAsciiDigit))

/-- Innermost IPv6 group:
`(?:[H]\x7b1,4\x7d:[H]\x7b0,4\x7d|:[H]\x7b1,4\x7d)?`. -/
def v6g5Rx : Regex :=
  optR (.alt (.cat hex14Rx (.cat colonRx (upToR (.cls isHexDigit) 4))) colonHexRx)

/-- IPv6 group at nesting depth 4:
`(?:[H]\x7b1,4\x7d:` g5 `|(?::[H]\x7b1,4\x7d)\x7b0,2\x7d)`. -/
def v6g4Rx : Regex :=
  .alt (.cat hex14Rx (.cat colonRx v6g5Rx)) (upToR colonHexRx 2)

/-- IPv6 group at nesting depth 3. -/
def v6g3Rx : Regex :=
  .alt (.cat hex14Rx (.cat colonRx v6g4Rx)) (upToR colonHexRx 3)

/-- IPv6 group at nesting depth 2. -/
def v6g2Rx : Regex :=
  .alt (.cat hex14Rx (.cat colonRx v6g3Rx)) (upToR colonHexRx 4)

/-- Outermost head group of the first IPv6 alternative:
`(?:[H]\x7b1,4\x7d:` g2 `|:(?::[H]\x7b1,4\x7d)\x7b0,5\x7d)`. -/
def v6g1Rx : Regex :=
  .alt (.cat hex14Rx (.cat colonRx v6g2Rx)) (.cat colonRx (upToR colonHexRx 5))

/-- Tail group of the first IPv6 alternative:
`(?:(?::[H]\x7b1,4\x7d)\x7b2\x7d|:` v4octet `(?:\.` v4octet `)\x7b3\x7d)`. -/
def v6tailRx : Regex :=
  .alt (repN colonHexRx 2)
    (.cat colonRx (.cat v6octetRx (repN (.cat (chR 0x2E) v6octetRx) 3)))

/-- Source `ipv6Addr`: the full textual IPv6 grammar, three top-level
alternatives. -/
def ipv6AddrRx : Regex :=
  .alt (.cat v6g1Rx v6tailRx)
    (.alt
      (.cat (.alt (repRange (.cat hex14Rx colonRx) 1 6) colonRx)
        (.cat colonRx hex14Rx))
      (.cat (repN (.cat hex14Rx colonRx) 7) colonRx))

/-- Source `ipAddr`: `(?:` ipv4Addr `|` ipv6Addr `)`. -/
def ipAddrRx : Regex := .alt ipv4AddrRx ipv6AddrRx

/-- Source `port`: `(?::[0-9]*)?`. -/
def portRx : Regex := optR (.cat colonRx (.clsStar isAsciiDigit))

/-- The punycode alternative `xn--[a-z0-9-]+`, read under `(?i)`. -/
def punycodeRx : Regex :=
  .cat (.oneOfCI [str ("xn--")]) (plusR (.cls isPunyChar))

/-- The `tlds` fragment of `relaxedExp`:
`(?i)(?:` punycode `|` anyOf(asciiTLDs ++ PseudoTLDs) `\b|`
anyOf(unicodeTLDs) `)(?-i)`.  ASCII TLDs require a following word
boundary; unicode TLDs do not. -/
def tldsRx : Regex :=
  .alt punycodeRx
    (.alt (.cat (.oneOfCI ((asciiTLDs ++ PseudoTLDs).map str)) .wb)
      (.oneOfCI (unicodeTLDs.map str)))

/-- The `site` fragment: domain ++ tlds. -/
def siteRx : Regex := .cat domainRx tldsRx

/-- The `hostName` fragment: `(?:` site `|` ipAddr `)`. -/
def hostNameRx : Regex := .alt siteRx ipAddrRx

/-- The `webURL` fragment: hostName ++ port ++ `(?:/` pathCont `|/)?`. -/
def webURLRx : Regex :=
  .cat hostNameRx
    (.cat portRx (optR (.alt (.cat (chR 0x2F) pathContRx) (chR 0x2F))))

/-- The `email` fragment: `[a-zA-Z0-9._%\-+]+@` ++ site. -/
def emailRx : Regex :=
  .cat (plusR (.cls isEmailLocalChar)) (.cat (chR 0x40) siteRx)

/-- The scheme group of `strictExp`:
`(?i)(?:(?:` anyOf(Schemes) `|` anyOf(SchemesUnofficial) `)://|`
anyOf(SchemesNoAuthority) `:)`. -/
def schemesRx : Regex :=
  .alt
    (.cat (.alt (.oneOfCI (Schemes.map str)) (.oneOfCI (SchemesUnofficial.map str)))
      (.lit (str ("://"))))
    (.cat (.oneOfCI (SchemesNoAuthority.map str)) colonRx)

/-- The `Strict` pattern: schemes followed by pathCont. -/
def strictRx : Regex := .cat schemesRx pathContRx

/-- The `Relaxed` pattern: strictExp `|` webURL `|` email. -/
def relaxedRx : Regex := .alt strictRx (.alt webURLRx emailRx)

/-- The exported `AnyScheme` expression as read inside
`StrictMatchingScheme` (which wraps it in `(?i)` ... `(?-i)`):
`(?:[a-zA-Z][a-zA-Z.\-+]*://|` anyOf(SchemesNoAuthority) `:)`. -/
def anySchemeRx : Regex :=
  .alt
    (.cat (.cls isAsciiAlpha) (.cat (.clsStar isSchemeTailChar) (.lit (str ("://")))))
    (.cat (.oneOfCI (SchemesNoAuthority.map str)) colonRx)

/-- The matcher produced by `StrictMatchingScheme AnyScheme`. -/
def anySchemeStrictRx : Regex := .cat anySchemeRx pathContRx

/-!
The syntactic layer: the Go code first builds the pattern *strings* from
named constants; the following definitions mirror that construction
character for character (braces and apostrophes inside pattern strings
are written with `\x7b`, `\x7d` and `\x27` escapes).
-/

/-- Source constant `midSubDelimChar`. -/
def midSubDelimChar : String := "!$&\x27*+,;="

/-- Source constant `endSubDelimChar`. -/
def endSubDelimChar : String := "$&+="

/-- Modelled from the spec: the generated `allowedUcsChar` pattern text,
as the RFC 3987 `ucschar` ranges of `isAllowedUcsChar`. -/
def allowedUcsChar : String :=
  "\\x\x7bA0\x7d-\\x\x7bD7FF\x7d\\x\x7bF900\x7d-\\x\x7bFDCF\x7d" ++
  "\\x\x7bFDF0\x7d-\\x\x7bFFEF\x7d\\x\x7b10000\x7d-\\x\x7b1FFFD\x7d" ++
  "\\x\x7b20000\x7d-\\x\x7b2FFFD\x7d\\x\x7b30000\x7d-\\x\x7b3FFFD\x7d" ++
  "\\x\x7bE1000\x7d-\\x\x7bEFFFD\x7d"

/-- Modelled from the spec: the generated `allowedUcsCharMinusPunc`
pattern text, the ranges of `isAllowedUcsCharMinusPunc`. -/
def allowedUcsCharMinusPunc : String :=
  "\\x\x7bA0\x7d-\\x\x7b1FFF\x7d\\x\x7b2070\x7d-\\x\x7bD7FF\x7d" ++
  "\\x\x7bF900\x7d-\\x\x7bFDCF\x7d\\x\x7bFDF0\x7d-\\x\x7bFFEF\x7d" ++
  "\\x\x7b10000\x7d-\\x\x7b1FFFD\x7d\\x\x7b20000\x7d-\\x\x7b2FFFD\x7d" ++
  "\\x\x7b30000\x7d-\\x\x7b3FFFD\x7d\\x\x7bE1000\x7d-\\x\x7bEFFFD\x7d"

/-- Source constant `midIPathSegmentChar`. -/
def midIPathSegmentChar : String :=
  "a-zA-Z0-9\\-._~" ++ "%" ++ midSubDelimChar ++ ":@" ++ allowedUcsChar

/-- Source constant `endIPathSegmentChar`. -/
def endIPathSegmentChar : String :=
  "a-zA-Z0-9\\-_~" ++ "%" ++ endSubDelimChar ++ allowedUcsCharMinusPunc

/-- Source constant `iPrivateChar`. -/
def iPrivateChar : String :=
  "\\x\x7bE000\x7d-\\x\x7bF8FF\x7d\\x\x7bF0000\x7d-\\x\x7bFFFFD\x7d" ++
  "\\x\x7b100000\x7d-\\x\x7b10FFFD\x7d"

/-- Source constant `midIChar`. -/
def midIChar : String := "/?#\\\\" ++ midIPathSegmentChar ++ iPrivateChar

/-- Source constant `endIChar`. -/
def endIChar : String := "/#" ++ endIPathSegmentChar ++ iPrivateChar

/-- Source constant `wellParen`. -/
def wellParen : String :=
  "\\((?:[" ++ midIChar ++ "]|\\([" ++ midIChar ++ "]*\\))*\\)"

/-- Source constant `wellBrack`. -/
def wellBrack : String :=
  "\\[(?:[" ++ midIChar ++ "]|\\[[" ++ midIChar ++ "]*\\])*\\]"

/-- Source constant `wellBrace`. -/
def wellBrace : String :=
  "\\\x7b(?:[" ++ midIChar ++ "]|\\\x7b[" ++ midIChar ++ "]*\\\x7d)*\\\x7d"

/-- Source constant `wellAll`. -/
def wellAll : String := wellParen ++ "|" ++ wellBrack ++ "|" ++ wellBrace

/-- Source constant `pathCont`. -/
def pathCont : String :=
  "(?:[" ++ midIChar ++ "]*(?:" ++ wellAll ++ "|[" ++ endIChar ++ "]))+"

/-- Source constant `letter`. -/
def letter : String := "\\p\x7bL\x7d"

/-- Source constant `mark`. -/
def mark : String := "\\p\x7bM\x7d"

/-- Source constant `number`. -/
def number : String := "\\p\x7bN\x7d"

/-- Source constant `iriChar`. -/
def iriChar : String := letter ++ mark ++ number

/-- Source constant `iri`. -/
def iri : String :=
  "[" ++ iriChar ++ "](?:[" ++ iriChar ++ "\\-]*[" ++ iriChar ++ "])?"

/-- Source constant `domain`. -/
def domain : String := "(?:" ++ iri ++ "\\.)+"

/-- Source constant `octet`. -/
def octet : String := "(?:25[0-5]|2[0-4][0-9]|1[0-9]\x7b2\x7d|[1-9][0-9]|[0-9])"

/-- Source constant `ipv4Addr`. -/
def ipv4Addr : String :=
  "\\b" ++ octet ++ "\\." ++ octet ++ "\\." ++ octet ++ "\\." ++ octet ++ "\\b"

/-- Source constant `ipv6Addr`. -/
def ipv6Addr : String :=
  "(?:[0-9a-fA-F]\x7b1,4\x7d:(?:[0-9a-fA-F]\x7b1,4\x7d:(?:[0-9a-fA-F]\x7b1,4\x7d:" ++
  "(?:[0-9a-fA-F]\x7b1,4\x7d:(?:[0-9a-fA-F]\x7b1,4\x7d:[0-9a-fA-F]\x7b0,4\x7d" ++
  "|:[0-9a-fA-F]\x7b1,4\x7d)?|(?::[0-9a-fA-F]\x7b1,4\x7d)\x7b0,2\x7d)" ++
  "|(?::[0-9a-fA-F]\x7b1,4\x7d)\x7b0,3\x7d)|(?::[0-9a-fA-F]\x7b1,4\x7d)\x7b0,4\x7d)" ++
  "|:(?::[0-9a-fA-F]\x7b1,4\x7d)\x7b0,5\x7d)(?:(?::[0-9a-fA-F]\x7b1,4\x7d)\x7b2\x7d" ++
  "|:(?:25[0-5]|(?:2[0-4]|1[0-9]|[1-9])?[0-9])" ++
  "(?:\\.(?:25[0-5]|(?:2[0-4]|1[0-9]|[1-9])?[0-9]))\x7b3\x7d)" ++
  "|(?:(?:[0-9a-fA-F]\x7b1,4\x7d:)\x7b1,6\x7d|:):[0-9a-fA-F]\x7b1,4\x7d" ++
  "|(?:[0-9a-fA-F]\x7b1,4\x7d:)\x7b7\x7d:"

/-- Source constant `ipAddr`. -/
def ipAddr : String := "(?:" ++ ipv4Addr ++ "|" ++ ipv6Addr ++ ")"

/-- Source constant `port`. -/
def port : String := "(?::[0-9]*)?"

/-- The byte set escaped by the external `QuoteMeta`:
`\.+*?()|[]\x7b\x7d^$`, restricted to ASCII. -/
def isSpecialByte (c : Nat) : Bool :=
  c < 0x80 && (str ("\\.+*?()|[]\x7b\x7d^$")).contains c

/-- Character-list core of `QuoteMeta`: escape every special byte with a
backslash. -/
def quoteMetaL : List Char → List Char
  | [] => []
  | c :: cs =>
    if isSpecialByte c.toNat then '\\' :: c :: quoteMetaL cs
    else c :: quoteMetaL cs

/-- The external `regexp.QuoteMeta`, as called by `anyOf`. -/
def quoteMeta (s : String) : String := String.mk (quoteMetaL s.data)

/-- Source `anyOf`: `(?:` quoted alternatives joined by `|` `)`. -/
def anyOf (strs : List String) : String :=
  "(?:" ++ String.intercalate "|" (strs.map quoteMeta) ++ ")"

/-- Source `strictExp`. -/
def strictExp : String :=
  let schemes :=
    "(?:(?:" ++ anyOf Schemes ++ "|" ++ anyOf SchemesUnofficial ++ ")://|" ++
      anyOf SchemesNoAuthority ++ ":)"
  "(?i)" ++ schemes ++ "(?-i)" ++ pathCont

/-- Source `AnyScheme`. -/
def AnyScheme : String :=
  "(?:[a-zA-Z][a-zA-Z.\\-+]*://|" ++ anyOf SchemesNoAuthority ++ ":)"

/-- The part of `relaxedExp` after the TLD partition and append, given
the combined ASCII TLD list and the unicode TLD list. -/
def relaxedBuild (tldList uniList : List String) : String :=
  let punycode := "xn--[a-z0-9-]+"
  let tlds :=
    "(?i)(?:" ++ punycode ++ "|" ++ anyOf tldList ++ "\\b|" ++ anyOf uniList ++ ")(?-i)"
  let site := domain ++ tlds
  let hostName := "(?:" ++ site ++ "|" ++ ipAddr ++ ")"
  let webURL := hostName ++ port ++ "(?:/" ++ pathCont ++ "|/)?"
  let email := "[a-zA-Z0-9._%\\-+]+@" ++ site
  strictExp ++ "|" ++ webURL ++ "|" ++ email

/-- Source `relaxedExp` as a function of the two data tables: partition
the TLD table, fold the pseudo TLDs onto the ASCII side, and build. -/
def relaxedExpOf (tlds pseudo : List String) : String :=
  let p := relaxedPartition tlds
  relaxedBuild (p.1 ++ pseudo) p.2

/-- Source `relaxedExp` on the package tables. -/
def relaxedExp : String := relaxedExpOf TLDs PseudoTLDs

/-- Modelled from the spec: the external pattern compiler called by
`StrictMatchingScheme` is the standard `regexp` package, not part of the
given source files.  Its well-formedness check is modelled as balance
checking of groups and character classes (the failure mode the spec's
`InvalidSchemeExpression` contract exercises): scan left to right,
skipping escaped characters, tracking class brackets and group depth. -/
def checkBal : List Char → Nat → Bool → Bool
  | [], d, ic => d == 0 && ic == false
  | ['\\'], _, _ => false
  | '\\' :: _ :: rest, d, ic => checkBal rest d ic
  | '[' :: rest, d, false => checkBal rest d true
  | ']' :: rest, d, true => checkBal rest d false
  | '(' :: rest, d, false => checkBal rest (d + 1) false
  | ')' :: rest, d, false =>
    (match d with
     | 0 => false
     | e + 1 => checkBal rest e false)
  | _ :: rest, d, ic => checkBal rest d ic

/-- Modelled from the spec: acceptance of a pattern by the external
compiler. -/
def compileCheck (pat : String) : Bool := checkBal pat.data 0 false

/-- Source `StrictMatchingScheme`: wrap the caller expression, compile
it, propagate the composition error (no matcher is produced then), and
otherwise hand back the compiled, Longest-mode pattern (represented by
its text). -/
def StrictMatchingScheme (exp : String) : Except String String :=
  let strictMatching := "(?i)(?:" ++ exp ++ ")(?-i)" ++ pathCont
  if compileCheck strictMatching then Except.ok strictMatching
  else Except.error strictMatching

/-- A Go slice header into a backing array (the store): offset, length
and capacity. -/
structure GoSlice where
  off : Nat
  len : Nat
  cap : Nat

/-- The elements a slice denotes in a store. -/
def readSlice (store : List String) (s : GoSlice) : List String :=
  (store.drop s.off).take s.len

/-- Overwrite the store from index `k` with the elements of `xs`. -/
def listWrite (store : List String) (k : Nat) (xs : List String) : List String :=
  store.take k ++ xs ++ store.drop (k + xs.length)

/-- Go `append(s, xs...)`: if the result fits the capacity it writes in
place into the backing store, otherwise it copies into a fresh array and
the store is untouched.  Returns the (possibly mutated) store and the
elements of the resulting slice. -/
def goAppend (store : List String) (s : GoSlice) (xs : List String) :
    List String × List String :=
  if s.len + xs.length ≤ s.cap then
    let store2 := listWrite store (s.off + s.len) xs
    (store2, readSlice store2 ⟨s.off, s.len + xs.length, s.cap⟩)
  else (store, readSlice store s ++ xs)

/-- Source `relaxedExp` with Go slice aliasing made explicit: the TLD
table is the backing store; the partition produces the capacity-limited
slice `TLDs[:i:i]` and the tail slice `TLDs[i:]`; the pseudo TLDs are
appended to the former before the tail slice is read.  Returns the
expression string and the final state of the backing store. -/
def relaxedExpGo (store pseudo : List String) : String × List String :=
  match store.findIdx? firstCpGeRuneSelf with
  | some i =>
    let ap := goAppend store ⟨0, i, i⟩ pseudo
    (relaxedBuild ap.2 (readSlice ap.1 ⟨i, store.length - i, store.length - i⟩), ap.1)
  | none =>
    let ap := goAppend store ⟨0, 0, 0⟩ pseudo
    (relaxedBuild ap.2 [], ap.1)

/-- Interpretation of a pattern fragment as a string literal: an escaped
special byte denotes itself, a bare special byte is not a literal, any
other character denotes itself. -/
def interpLit : List Char → Option (List Char)
  | [] => some []
  | c :: rest =>
    if c = '\\' then
      match rest with
      | [] => none
      | d :: rest2 =>
        if isSpecialByte d.toNat then (interpLit rest2).map (fun l => d :: l) else none
    else if isSpecialByte c.toNat then none
    else (interpLit rest).map (fun l => c :: l)


/-!
Supporting lemmas.
-/

/-- Row extraction distributes over the union of two tables. -/
theorem getRow_lor (a b W i : Nat) : getRow (a ||| b) W i = getRow a W i ||| getRow b W i := by
  unfold getRow
  apply Nat.eq_of_testBit_eq
  intro k
  simp only [Nat.testBit_land, Nat.testBit_shiftRight, Nat.testBit_lor]
  cases a.testBit (i * W + k) <;> cases b.testBit (i * W + k) <;> simp

/-- Rows of the zero table are empty. -/
theorem getRow_zero (W i : Nat) : getRow 0 W i = 0 := by
  unfold getRow
  rw [Nat.zero_shiftRight, Nat.zero_and]

/-- The end masks of an alternation are the unions of the branch end
masks: the match engine considers both branches at every position. -/
theorem matchEnds_alt (input : List Nat) (r s : Regex) (pos : Nat) :
    matchEnds input (.alt r s) pos = matchEnds input r pos ||| matchEnds input s pos := by
  unfold matchEnds
  rw [show tableFor (pack input) input.length (.alt r s)
        = tableFor (pack input) input.length r ||| tableFor (pack input) input.length s from rfl]
  exact getRow_lor (tableFor (pack input) input.length r)
    (tableFor (pack input) input.length s) (input.length + 2) pos

/-- A scan for a predicate that fails on every element finds no index. -/
theorem findIdxQ_none (p : String → Bool) :
    ∀ (l : List String) (s : Nat), (∀ t ∈ l, p t = false) → List.findIdx? p l s = none := by
  intro l
  induction l with
  | nil => intro s _; rfl
  | cons a as ih =>
    intro s h
    have ha : p a = false := h a (by simp)
    simp only [List.findIdx?, ha, Bool.false_eq_true, if_false]
    exact ih (s + 1) (fun t ht => h t (by simp [ht]))

/-!
The claims.
-/

/-- C1: for every ASCII TLD `t` in the TLD table, the Relaxed matcher on
`"example." ++ t ++ "x"` reports no span ending exactly at the end of
`t`, while on `"example." ++ t ++ "!"` it reports the span covering
`"example." ++ t`; non-ASCII TLDs carry no trailing-boundary
requirement, so on `"example." ++ t ++ "x"` the span ending at the end
of `t` is reported. -/
theorem c1_ascii_tld_word_boundary : ∀ t ∈ TLDs,
    ((t.data.all (fun c => decide (c.toNat < 0x80)) = true →
       ((findAll relaxedRx (str ("example." ++ t ++ "x"))).all
          (fun pr => pr.2 != 8 + t.length) = true) ∧
       (0, 8 + t.length) ∈ findAll relaxedRx (str ("example." ++ t ++ "!"))) ∧
     (t.data.all (fun c => decide (c.toNat < 0x80)) = false →
       (0, 8 + t.length) ∈ findAll relaxedRx (str ("example." ++ t ++ "x")))) := by
  decide!

/-- Witness for C1 at the table entry `"com"`. -/
theorem c1_ascii_tld_word_boundary_witness :
    ((findAll relaxedRx (str ("example." ++ "com" ++ "x"))).all
       (fun pr => pr.2 != 8 + ("com" : String).length) = true) ∧
    (0, 8 + ("com" : String).length) ∈ findAll relaxedRx (str ("example." ++ "com" ++ "!")) :=
  (c1_ascii_tld_word_boundary "com" (by decide)).1 (by decide)

/-- C2: on `"See (https://en.wikipedia.org/wiki/Foo_(bar)) today"` both
the Strict and the Relaxed matcher report exactly the span (5, 44),
which is `https://en.wikipedia.org/wiki/Foo_(bar)`: the balanced inner
parenthetical is included, the outer parenthesis and trailing text are
not. -/
theorem c2_balanced_paren_span :
    findAll strictRx (str ("See (https://en.wikipedia.org/wiki/Foo_(bar)) today")) = [(5, 44)] ∧
    findAll relaxedRx (str ("See (https://en.wikipedia.org/wiki/Foo_(bar)) today")) = [(5, 44)] := by
  exact ⟨by decide!, by decide!⟩

/-- C3: on `"visit https://example.com."` the reported span is (6, 25),
ending before the trailing sentence period, and the period is indeed
excluded from the end-of-segment character class. -/
theorem c3_trailing_period_excluded :
    findAll strictRx (str ("visit https://example.com.")) = [(6, 25)] ∧
    findAll relaxedRx (str ("visit https://example.com.")) = [(6, 25)] ∧
    isEndIChar 0x2E = false := by
  refine ⟨by decide!, by decide!, by decide⟩

/-- C4: for every input, the spans reported by the Relaxed matcher are
invariant under permuting its three top-level alternatives (Strict
grammar, bare web URL, bare email): the longest-match table of an
alternation is the bitwise union of the branch tables, and union is
commutative and associative. -/
theorem c4_alternation_order_invariant : ∀ input : List Nat,
    (findAll relaxedRx input = findAll (.alt strictRx (.alt emailRx webURLRx)) input) ∧
    (findAll relaxedRx input = findAll (.alt webURLRx (.alt strictRx emailRx)) input) ∧
    (findAll relaxedRx input = findAll (.alt webURLRx (.alt emailRx strictRx)) input) ∧
    (findAll relaxedRx input = findAll (.alt emailRx (.alt strictRx webURLRx)) input) ∧
    (findAll relaxedRx input = findAll (.alt emailRx (.alt webURLRx strictRx)) input) := by
  intro input
  unfold findAll
  have key : ∀ a b c : Regex,
      tableFor (pack input) input.length (.alt a (.alt b c)) =
        tableFor (pack input) input.length a |||
          (tableFor (pack input) input.length b ||| tableFor (pack input) input.length c) :=
    fun a b c => rfl
  have hrel : relaxedRx = Regex.alt strictRx (.alt webURLRx emailRx) := rfl
  rw [hrel]
  rw [key, key, key, key, key, key]
  set A := tableFor (pack input) input.length strictRx with hA
  set B := tableFor (pack input) input.length webURLRx with hB
  set C := tableFor (pack input) input.length emailRx with hC
  refine ⟨?_, ?_, ?_, ?_, ?_⟩
  · rw [Nat.lor_comm B C]
  · rw [← Nat.lor_assoc, Nat.lor_comm A B, Nat.lor_assoc]
  · rw [← Nat.lor_assoc, Nat.lor_comm A B, Nat.lor_assoc, Nat.lor_comm A C]
  · rw [← Nat.lor_assoc, Nat.lor_comm (A ||| B) C]
  · rw [← Nat.lor_assoc, Nat.lor_comm (A ||| B) C, Nat.lor_comm A B]

/-- C5: every span the Strict grammar can match is also matched by the
Relaxed grammar (the Relaxed pattern is the Strict pattern with two more
alternatives); in particular Strict reports no match on `"example.com"`
while Relaxed reports exactly `"example.com"`. -/
theorem c5_strict_included_in_relaxed :
    (∀ (input : List Nat) (i j : Nat),
      (matchEnds input strictRx i).testBit j = true →
      (matchEnds input relaxedRx i).testBit j = true) ∧
    findAll strictRx (str ("example.com")) = [] ∧
    findAll relaxedRx (str ("example.com")) = [(0, 11)] := by
  refine ⟨?_, by decide!, by decide!⟩
  intro input i j h
  have hsplit : matchEnds input relaxedRx i =
      matchEnds input strictRx i ||| matchEnds input (.alt webURLRx emailRx) i := by
    rw [show relaxedRx = Regex.alt strictRx (.alt webURLRx emailRx) from rfl]
    exact matchEnds_alt input strictRx (.alt webURLRx emailRx) i
  rw [hsplit, Nat.testBit_lor, h, Bool.true_or]

/-- Witness for C5 on the Strict match `"cid:x"` (span 0 to 5). -/
theorem c5_strict_included_in_relaxed_witness :
    (matchEnds (str ("cid:x")) strictRx 0).testBit 5 = true ∧
    (matchEnds (str ("cid:x")) relaxedRx 0).testBit 5 = true :=
  ⟨by decide!, c5_strict_included_in_relaxed.1 (str ("cid:x")) 0 5 (by decide!)⟩

/-- C6: `StrictMatchingScheme` on the malformed expression
`"not(avalidexpr"` fails (the caller receives an error and no matcher),
while on the exported `AnyScheme` expression it succeeds, and the
resulting matcher reports the span `"foobar://x"` on `"foobar://x"`. -/
theorem c6_strict_matching_scheme_error :
    (StrictMatchingScheme ("not(avalidexpr")).toOption = none ∧
    (StrictMatchingScheme AnyScheme).toOption.isSome = true ∧
    findAll anySchemeStrictRx (str ("foobar://x")) = [(0, 10)] := by
  refine ⟨by decide!, by decide!, by decide!⟩

/-- C7: the IPv4 grammar matches `"255.255.255.255"` in full, matches
nowhere in `"300.1.1.1"` or `"256.1.1.1"`, and the octet fragment
matches the decimal representation of `n` (for `n` below 1000) exactly
when `n` is at most 255. -/
theorem c7_ipv4_octet_range :
    (matchEnds (str ("255.255.255.255")) ipv4AddrRx 0).testBit 15 = true ∧
    (∀ i j, (matchEnds (str ("300.1.1.1")) ipv4AddrRx i).testBit j = false) ∧
    (∀ i j, (matchEnds (str ("256.1.1.1")) ipv4AddrRx i).testBit j = false) ∧
    (∀ n, n < 1000 →
      (((matchEnds (str (Nat.repr n)) octetRx 0).testBit ((Nat.repr n).length) = true) ↔
        n < 256)) := by
  refine ⟨by decide!, ?_, ?_, by decide!⟩
  · intro i j
    have h0 : tableFor (pack (str ("300.1.1.1"))) (str ("300.1.1.1")).length ipv4AddrRx = 0 := by
      decide!
    unfold matchEnds
    rw [h0, getRow_zero, Nat.zero_testBit]
  · intro i j
    have h0 : tableFor (pack (str ("256.1.1.1"))) (str ("256.1.1.1")).length ipv4AddrRx = 0 := by
      decide!
    unfold matchEnds
    rw [h0, getRow_zero, Nat.zero_testBit]

/-- Witness for C7 at the octet values 255 and 300. -/
theorem c7_ipv4_octet_range_witness :
    (((matchEnds (str (Nat.repr 255)) octetRx 0).testBit ((Nat.repr 255).length) = true) ↔
      255 < 256) ∧
    (((matchEnds (str (Nat.repr 300)) octetRx 0).testBit ((Nat.repr 300).length) = true) ↔
      300 < 256) :=
  ⟨c7_ipv4_octet_range.2.2.2 255 (by decide), c7_ipv4_octet_range.2.2.2 300 (by decide)⟩

/-- C8: when every TLD entry has an ASCII first byte the partition loop
assigns neither slice, leaving both lists empty, and the Relaxed
expression is the one built with no registered TLDs at all; moreover the
partition classifies by first byte only, splitting a table whose first
entry is non-ASCII as a whole string but ASCII in its first byte onto
the ASCII side. -/
theorem c8_all_ascii_partition_empty :
    (∀ (tlds pseudo : List String), (∀ t ∈ tlds, firstCpGeRuneSelf t = false) →
      relaxedPartition tlds = ([], []) ∧ relaxedExpOf tlds pseudo = relaxedExpOf [] pseudo) ∧
    relaxedPartition ["aé", "éx"] = (["aé"], ["éx"]) := by
  constructor
  · intro tlds pseudo h
    have hidx : tlds.findIdx? firstCpGeRuneSelf = none := findIdxQ_none _ tlds 0 h
    constructor
    · unfold relaxedPartition
      rw [hidx]
    · unfold relaxedExpOf relaxedPartition
      rw [hidx]
      rfl
  · decide

/-- Witness for C8 on the all-ASCII table `["com", "net"]`. -/
theorem c8_all_ascii_partition_empty_witness :
    relaxedPartition ["com", "net"] = ([], []) ∧
    relaxedExpOf ["com", "net"] ["onion"] = relaxedExpOf [] ["onion"] :=
  c8_all_ascii_partition_empty.1 ["com", "net"] ["onion"] (by decide)

/-- C9: building the Relaxed expression leaves the TLD backing store
unchanged (the capacity-limited slice forces the append to copy), the
store-passing build agrees with the pure one, and a repeated call gives
the same result; by contrast, appending through a slice whose capacity
exceeds its length does write into the backing array. -/
theorem c9_append_fresh_array :
    (∀ (store pseudo : List String),
      (relaxedExpGo store pseudo).2 = store ∧
      (relaxedExpGo store pseudo).1 = relaxedExpOf store pseudo ∧
      relaxedExpGo (relaxedExpGo store pseudo).2 pseudo = relaxedExpGo store pseudo) ∧
    goAppend ["com", "рф"] ⟨0, 1, 2⟩ ["onion"] = (["com", "onion"], ["com", "onion"]) := by
  constructor
  · intro store pseudo
    have main : (relaxedExpGo store pseudo).2 = store ∧
        (relaxedExpGo store pseudo).1 = relaxedExpOf store pseudo := by
      unfold relaxedExpGo relaxedExpOf relaxedPartition
      cases h : store.findIdx? firstCpGeRuneSelf with
      | none =>
        cases pseudo with
        | nil =>
          simp [goAppend, readSlice, listWrite, relaxedBuild]
        | cons q qs =>
          simp [goAppend, readSlice, listWrite, relaxedBuild]
      | some i =>
        cases pseudo with
        | nil =>
          simp [goAppend, readSlice, listWrite, List.take_append_drop]
          rw [show store.length - i = (store.drop i).length from (List.length_drop i store).symm,
            List.take_length]
        | cons q qs =>
          have hcap : ¬(i + (q :: qs).length ≤ i) := by simp
          simp [goAppend, hcap, readSlice, listWrite]
          rw [show store.length - i = (store.drop i).length from (List.length_drop i store).symm,
            List.take_length]
    exact ⟨main.1, main.2, by rw [main.1]⟩
  · decide

/-- C10: `anyOf` escapes each scheme name, so read back as a literal the
escaped text denotes exactly the original name (for every string); on
the concrete name `"coap+tcp"` the escaping is visible, the name is in
the scheme table, `"coap+tcp://x"` begins a Strict match, and
`"coapttcp://x"` does not. -/
theorem c10_quotemeta_literal :
    (∀ s : List Char, interpLit (quoteMetaL s) = some s) ∧
    anyOf (["coap+tcp"]) = "(?:coap\\+tcp)" ∧
    "coap+tcp" ∈ Schemes ∧
    matchEnds (str ("coap+tcp://x")) strictRx 0 ≠ 0 ∧
    matchEnds (str ("coapttcp://x")) strictRx 0 = 0 := by
  refine ⟨?_, by decide, by decide, by decide!, by decide!⟩
  intro s
  induction s with
  | nil => rfl
  | cons c cs ih =>
    by_cases h : isSpecialByte c.toNat = true
    · simp only [quoteMetaL, h, if_true]
      simp [interpLit, h, ih]
    · have hc : ¬ c = '\\' := by
        intro e
        rw [e] at h
        exact h (by decide)
      simp only [quoteMetaL, h, if_false]
      rw [interpLit.eq_def]
      simp [interpLit, h, hc, ih]

end Xurls
